import Mathlib

/-!
Verification of the generation-job orchestration layer of
`src/services/geminiService.ts` (retry/backoff, audio container encoding,
format normalization, image/video fan-out with fallback, analysis and
transcription entry points), as a shallow embedding in Lean.

JavaScript strings are modelled as `String` (or `List Char` where the code
does regex prefix matching), byte buffers as `List Nat` with explicit
`% 2 ^ w` wrapping where `DataView` setters truncate, promises as explicit
outcome values (`Except`), and `Promise.allSettled` as a list of per-branch
outcomes in submission order (with a separate slot-writing model used to
show completion-order independence).
-/

/-- Model of a JavaScript error value as consumed by `getErrorMessage` and
the retry classifier: `null`/`undefined`, a plain string, or an object
carrying optional `status`, `code`, `message`, `error.message` fields plus
its JSON serialization (used only when the message fields are absent). -/
inductive ErrVal : Type where
  | null : ErrVal
  | str : String → ErrVal
  | obj : Option Nat → Option Nat → Option String → Option String → String → ErrVal
deriving Repr, DecidableEq

/-- Field `error.status` (absent on non-objects, as in JS where it is `undefined`). -/
def ErrVal.statusOf : ErrVal → Option Nat
  | .obj s _ _ _ _ => s
  | _ => none

/-- Field `error.code`. -/
def ErrVal.codeOf : ErrVal → Option Nat
  | .obj _ c _ _ _ => c
  | _ => none

/-- JS truthiness of an error value (`null`/`undefined` and `""` are falsy;
objects are always truthy). -/
def ErrVal.truthy : ErrVal → Bool
  | .null => false
  | .str s => !(s = "")
  | .obj _ _ _ _ _ => true

/-- Helper for `getErrorMessage`: the `error.error.message` fallback, else the
JSON serialization (source: `if (error.error && error.error.message) return
error.error.message; return JSON.stringify(error);`). -/
def innerOrJson (inner : Option String) (json : String) : String :=
  match inner with
  | some im => if im = "" then json else im
  | none => json

/-- Model of `getErrorMessage` (geminiService.ts lines 18-24): falsy input
gives "Unknown error"; strings are returned as-is; otherwise `error.message`,
then `error.error.message`, then `JSON.stringify(error)`. -/
def getErrorMessage : ErrVal → String
  | .null => "Unknown error"
  | .str s => if s = "" then "Unknown error" else s
  | .obj _ _ (some m) inner json => if m = "" then innerOrJson inner json else m
  | .obj _ _ none inner json => innerOrJson inner json

/-- Substring test, modelling JS `String.prototype.includes` for a nonempty
pattern: `s.includes(pat)` iff splitting on the pattern produces more than one
piece. -/
def containsSub (s pat : String) : Bool := (s.splitOn pat).length != 1

/-- A JS `new Error(msg)` value: `message` is set, no `status`/`code`, and
`JSON.stringify` of a plain `Error` is the empty object literal. -/
def mkError (msg : String) : ErrVal := ErrVal.obj none none (some msg) none "\x7b\x7d"

/-- The transient-error classifier from `retryWithBackoff` (line 40):
`error.status === 503 || error.code === 503 || msg.includes("overloaded") ||
msg.includes("503") || error.status === 429 || error.code === 429`, where
`msg` is the lower-cased `getErrorMessage` output. -/
def isOverloaded (e : ErrVal) : Bool :=
  e.statusOf == some 503 || e.codeOf == some 503
    || containsSub (getErrorMessage e).toLower "overloaded"
    || containsSub (getErrorMessage e).toLower "503"
    || e.statusOf == some 429 || e.codeOf == some 429

/-- Observable trace of one `retryWithBackoff` run: the final outcome, the
number of times the operation was invoked, and the list of backoff delays
(in ms) that were awaited between attempts. -/
structure RetryTrace (α : Type) : Type where
  result : Except ErrVal α
  attempts : Nat
  delays : List Nat

/-- The loop body of `retryWithBackoff` (lines 34-51): the operation is
modelled as a function from the attempt index to that attempt's outcome.
`i` is the loop counter, the second argument the remaining iterations
(`maxRetries - i`).  On failure the error is classified; a retryable error
with `i < maxRetries - 1` waits `baseDelay * 2 ^ i` and continues, anything
else is thrown at once.  The fuel-exhausted case corresponds to the
`throw lastError` after the loop, reachable only when `maxRetries = 0`
(where `lastError` is still `undefined`). -/
def retryGo (op : Nat → Except ErrVal α) (maxRetries baseDelay : Nat) :
    Nat → Nat → RetryTrace α
  | _, 0 => ⟨Except.error ErrVal.null, 0, []⟩
  | i, r + 1 =>
    match op i with
    | Except.ok v => ⟨Except.ok v, 1, []⟩
    | Except.error e =>
      if isOverloaded e = true ∧ i < maxRetries - 1 then
        let t := retryGo op maxRetries baseDelay (i + 1) r
        ⟨t.result, t.attempts + 1, baseDelay * 2 ^ i :: t.delays⟩
      else ⟨Except.error e, 1, []⟩

/-- Model of `retryWithBackoff` (geminiService.ts lines 28-52), with the
source defaults `maxRetries = 3`, `baseDelay = 2000` passed explicitly. -/
def retryWithBackoff (op : Nat → Except ErrVal α) (maxRetries baseDelay : Nat) :
    RetryTrace α :=
  retryGo op maxRetries baseDelay 0 maxRetries

/-- Little-endian bytes of a 16-bit field as written by
`DataView.setUint16(off, v, true)` (value wraps modulo 2^16). -/
def u16le (n : Nat) : List Nat := [n % 256, n / 256 % 256]

/-- Little-endian bytes of a 32-bit field as written by
`DataView.setUint32(off, v, true)` (value wraps modulo 2^32). -/
def u32le (n : Nat) : List Nat :=
  [n % 256, n / 256 % 256, n / 65536 % 256, n / 16777216 % 256]

/-- Bytes written by `writeString` (lines 56-60): the char codes of an ASCII
tag string. -/
def asciiBytes (s : String) : List Nat := s.data.map Char.toNat

/-- Value `totalLength` as accumulated by the first loop of `combineBase64Chunks`
(lines 76-80): the sum of the decoded chunk lengths. -/
def totalLen (chunks : List (List Nat)) : Nat := (chunks.map List.length).sum

/-- The 44-byte WAV header assembled by `combineBase64Chunks` (lines 89-106),
written field by field at consecutive offsets 0,4,8,12,16,20,22,24,28,32,34,
36,40 with `channels = 1` and `bitDepth = 16`. -/
def wavHeader (sampleRate totalLength : Nat) : List Nat :=
  asciiBytes "RIFF" ++ u32le (36 + totalLength) ++
  asciiBytes "WAVE" ++ asciiBytes "fmt " ++
  u32le 16 ++ u16le 1 ++ u16le 1 ++
  u32le sampleRate ++ u32le (sampleRate * 1 * (16 / 8)) ++
  u16le (1 * (16 / 8)) ++ u16le 16 ++
  asciiBytes "data" ++ u32le totalLength

/-- The `wavFile` buffer of `combineBase64Chunks` (lines 72-110) at byte
level: header followed by the chunk bytes merged in input order (the source
then base64-encodes this buffer into a data URI; the claims are about the
byte layout).  The copy loop at lines 82-87 concatenates the decoded chunks
in order, i.e. `chunks.join`. -/
def combineChunks (chunks : List (List Nat)) (sampleRate : Nat) : List Nat :=
  wavHeader sampleRate (totalLen chunks) ++ chunks.join

/-- Read back a little-endian 16-bit field. -/
def decodeU16le : List Nat → Nat
  | [a, b] => a + 256 * b
  | _ => 0

/-- Read back a little-endian 32-bit field. -/
def decodeU32le : List Nat → Nat
  | [a, b, c, d] => a + 256 * (b + 256 * (c + 256 * d))
  | _ => 0

/-- The regex word class `\w`, i.e. `[A-Za-z0-9_]`. -/
def isWordChar (c : Char) : Bool := c.isAlphanum || c == '_'

/-- The char class `[a-zA-Z+]` used by the mime-extraction regex of
`convertImageToCompatibleFormat` (line 145). -/
def isMimeChar (c : Char) : Bool := c.isAlpha || c == '+'

/-- Anchored match of a regex of the shape `^data:<kind><cls>+;base64,`
(with `<kind>` e.g. `image/` and `<cls>` a char class): returns the
nonempty char-class run (the captured mime subtype) and the remainder after
`;base64,`.  Because `;` is never in the class, the greedy run needs no
backtracking, so this is exactly the regex's behaviour. -/
def matchDataUri (kind : List Char) (valid : Char → Bool) (s : List Char) :
    Option (List Char × List Char) :=
  let pre := "data:".data ++ kind
  if pre.isPrefixOf s then
    let t := s.drop pre.length
    let m := t.takeWhile valid
    let rest := t.drop m.length
    if m.isEmpty then none
    else if ";base64,".data.isPrefixOf rest then some (m, rest.drop 8)
    else none
  else none

/-- Result of the fast path of `convertImageToCompatibleFormat`
(lines 144-148): the stripped payload, the extracted mime type and the
original data URI. -/
structure FastImage : Type where
  data : List Char
  mimeType : String
  fullDataUri : List Char
deriving Repr, DecidableEq

/-- The no-re-encoding fast path of `convertImageToCompatibleFormat`
(geminiService.ts lines 143-149): if the input matches
`^data:image\/(png|jpeg|jpg);base64,` the envelope is stripped — the mime
type is the `image/...` segment and the data is everything after the comma,
returned unchanged; otherwise this path does not apply (`none`; the source
then falls into the canvas re-encode branch, which is browser-external).
The supported-mime test is expressed as: the generic `image/`-mime match
succeeds and its captured subtype is `png`, `jpeg` or `jpg` — equivalent to
the source's anchored alternation since `;` terminates the subtype. -/
def convertImageFast (s : List Char) : Option FastImage :=
  match matchDataUri "image/".data isMimeChar s with
  | some (m, rest) =>
    if m = "png".data ∨ m = "jpeg".data ∨ m = "jpg".data then
      some { data := rest, mimeType := "image/" ++ String.mk m, fullDataUri := s }
    else none
  | none => none

/-- Shared mime/data extraction used by `analyzeVideo` (lines 548-549),
`generateAudio` and `transcribeAudio` (lines 654-655): the mime type is the
first capture of `^data:(<kind>\w+);base64,` or the given default, and the
data is the input with that prefix stripped (left unchanged when the regex
does not match, exactly like `String.prototype.replace`). -/
def stripMedia (kindStr : String) (defaultMime : String) (input : List Char) :
    String × List Char :=
  match matchDataUri kindStr.data isWordChar input with
  | some (m, rest) => (kindStr ++ String.mk m, rest)
  | none => (defaultMime, input)

/-- Outcome of one analysis/transcription entry point: the value returned to
the caller, whether the external `generateContent` call was made, and (when
made) the `inlineData` mime and payload that were sent. -/
structure CallOutcome : Type where
  result : Except ErrVal String
  called : Bool
  sentMime : Option String
  sentData : Option (List Char)

/-- Model of `analyzeVideo` (geminiService.ts lines 543-568).  Inputs
starting with `data:` are sent to the service as inline data (mime from the
`video/` pattern or the `video/mp4` default); any other input is rejected
with the demo error before any service call.  The service itself is a
parameter: the `response.text` of the one call it would answer, `none`
standing for a missing text field (`response.text || "Analysis failed"`). -/
def analyzeVideoModel (input : List Char)
    (serviceText : Except ErrVal (Option String)) : CallOutcome :=
  if "data:".data.isPrefixOf input then
    let md := stripMedia "video/" "video/mp4" input
    { result :=
        match serviceText with
        | Except.error e => Except.error e
        | Except.ok t =>
          Except.ok (match t with
            | some s => if s = "" then "Analysis failed" else s
            | none => "Analysis failed"),
      called := true, sentMime := some md.1, sentData := some md.2 }
  else
    { result := Except.error (mkError
        "Direct URL analysis not implemented in this demo. Please use uploaded videos."),
      called := false, sentMime := none, sentData := none }

/-- Model of `transcribeAudio` (geminiService.ts lines 652-668).  There is no
input validation at all: the mime/data pair is extracted with the `audio/`
pattern (default `audio/wav`, data unchanged when the pattern does not
match) and the service is always called; the result is `response.text || ""`. -/
def transcribeAudioModel (input : List Char)
    (serviceText : Except ErrVal (Option String)) : CallOutcome :=
  let md := stripMedia "audio/" "audio/wav" input
  { result :=
      match serviceText with
      | Except.error e => Except.error e
      | Except.ok t =>
        Except.ok (match t with
          | some s => s
          | none => ""),
    called := true, sentMime := some md.1, sentData := some md.2 }

/-- One part of a `generateContent` response candidate, reduced to the
fields `generateImageFromText` reads: the optional `inlineData` payload and
its mime type (`none` models an absent field, `some ""` an empty string,
both falsy in the source's truthiness tests). -/
structure RespPart : Type where
  inlineMime : Option String
  inlineData : Option String
deriving Repr, DecidableEq

/-- The response-parsing loop of `generateImageFromText` (lines 376-384):
every part with truthy `inlineData.data` contributes
`data:<mime>;base64,<data>`, with mime defaulting to `image/png` when the
`mimeType` field is falsy. -/
def extractImages (parts : List RespPart) : List String :=
  parts.filterMap fun p =>
    match p.inlineData with
    | some d =>
      if d = "" then none
      else
        some ("data:" ++
          (match p.inlineMime with
           | some m => if m = "" then "image/png" else m
           | none => "image/png") ++ ";base64," ++ d)
    | none => none

/-- The try/catch body of `generateImageFromText` (lines 366-398) given the
outcome of its single `generateContent` call: a failed call is re-thrown as
`new Error(getErrorMessage(e))`; an empty image list raises the safety-filter
error (itself re-wrapped by the catch into an equal `Error`); otherwise the
parsed image list is returned. -/
def generateImageFromTextCore (service : Except ErrVal (List RespPart)) :
    Except ErrVal (List String) :=
  match service with
  | Except.error e => Except.error (mkError (getErrorMessage e))
  | Except.ok parts =>
    let images := extractImages parts
    if images.isEmpty then
      Except.error (mkError "No images generated. Safety filter might have been triggered.")
    else Except.ok images

/-- One part of the request sent by `generateImageFromText`: an inline image
(after the `^data:image\/\w+;base64,` strip of lines 359-360) or the prompt
text. -/
inductive ReqPart : Type where
  | inline (data : List Char) (mimeType : String) : ReqPart
  | text (s : String) : ReqPart
deriving Repr, DecidableEq

/-- Request part built from one input image (lines 358-362): `cleanBase64`
strips the image data-URI envelope if present (else leaves the string
unchanged) and the mime type is the capture or the `image/png` default. -/
def imagePartOf (b : List Char) : ReqPart :=
  match matchDataUri "image/".data isWordChar b with
  | some (m, rest) => ReqPart.inline rest ("image/" ++ String.mk m)
  | none => ReqPart.inline b "image/png"

/-- Observable outcome of `generateImageFromText`: the returned value and the
list of `generateContent` requests issued (model name and parts), one entry
per external call. -/
structure GIFTOutcome : Type where
  result : Except ErrVal (List String)
  serviceCalls : List (String × List ReqPart)

/-- Model of `generateImageFromText` (geminiService.ts lines 342-399).
`countOpt` models `options.count` (resolved as `options.count || 1`, line
349) — the source computes it but never uses it: exactly one
`generateContent` call is issued whatever its value, with parts = input
images then the prompt, against `imagen-3.0-generate-002` when the model
name contains `imagen`, else `gemini-2.5-flash-image`.  The service response
for that single call is the `service` parameter. -/
def generateImageFromTextModel (prompt model : String)
    (inputImages : List (List Char)) (countOpt : Option Nat)
    (service : Except ErrVal (List RespPart)) : GIFTOutcome :=
  let count := match countOpt with
    | some c => if c = 0 then 1 else c
    | none => 1
  let effectiveModel :=
    if containsSub model "imagen" then "imagen-3.0-generate-002"
    else "gemini-2.5-flash-image"
  let parts := inputImages.map imagePartOf ++ [ReqPart.text prompt]
  { result := generateImageFromTextCore service,
    serviceCalls := [(effectiveModel, parts)] }

/-- The `video` object of a completed Veo operation
(`op.response?.generatedVideos?.[0]?.video`, line 500), reduced to the field
the collection loop reads. -/
structure VideoObj : Type where
  uri : Option String
deriving Repr, DecidableEq

/-- Terminal outcome of one fan-out branch, i.e. of one
`retryWithBackoff(start + poll)` promise as seen by `Promise.allSettled`
(line 492): fulfilled with the optional chain
`response?.generatedVideos?.[0]?.video` collapsed to an optional video
object, or rejected with the branch's final error. -/
inductive BranchOutcome : Type where
  | fulfilled (video : Option VideoObj) : BranchOutcome
  | rejected (e : ErrVal) : BranchOutcome
deriving Repr, DecidableEq

/-- The raw URI a branch contributes, if any: the branch must be fulfilled,
the video object present, and `vid.uri` truthy (`if (vid?.uri)`, line 501). -/
def branchUri : BranchOutcome → Option String
  | BranchOutcome.fulfilled (some v) =>
    match v.uri with
    | some u => if u = "" then none else some u
    | none => none
  | _ => none

/-- The `validUris` collection loop (lines 495-511): for each settled result
in submission order, a fulfilled branch with a truthy uri contributes
`uri&key=<apiKey>` (line 504). -/
def collectUris (apiKey : String) (results : List BranchOutcome) : List String :=
  results.filterMap fun r => (branchUri r).map fun u => u ++ "&key=" ++ apiKey

/-- The search `results.find(r => r.status === 'rejected')` (line 515). -/
def firstRejected : List BranchOutcome → Option ErrVal
  | [] => none
  | BranchOutcome.rejected e :: _ => some e
  | BranchOutcome.fulfilled _ :: rest => firstRejected rest

/-- The error thrown when no branch yielded a uri (line 516):
`firstError?.reason || new Error("Video generation failed (No valid URIs).")`
— the first rejection's reason when present and truthy, else the fresh
error. -/
def primaryError (results : List BranchOutcome) : ErrVal :=
  match firstRejected results with
  | some e =>
    if e.truthy then e
    else mkError "Video generation failed (No valid URIs)."
  | none => mkError "Video generation failed (No valid URIs)."

/-- The settled outcome list: `Promise.allSettled` resolves with one entry
per submitted promise, in submission order (`operations` is filled with
branch indices `0..count-1` in the loop at lines 474-490). -/
def fanOutResults (branch : Nat → BranchOutcome) (k : Nat) : List BranchOutcome :=
  (List.range k).map branch

/-- Event-level model of `Promise.allSettled`'s aggregation: starting from
`k` empty slots, each completion event (a branch index, in an arbitrary
completion order) writes that branch's outcome into its own slot.  Used to
show the settled list is submission-ordered regardless of completion order. -/
def settleAux (out : Nat → α) (order : List Nat) (init : List (Option α)) :
    List (Option α) :=
  order.foldl (fun acc i => acc.set i (some (out i))) init

/-- Aggregation `settleAux` starting from `k` unfilled slots. -/
def settleWrites (out : Nat → α) (order : List Nat) (k : Nat) : List (Option α) :=
  settleAux out order (List.replicate k none)

/-- The value `generateVideo` resolves with (lines 519-524 and 536): the
primary uri, the full uri list (absent on the fallback path, as in the
source) and the fallback flag. -/
structure GVResult : Type where
  uri : String
  uris : Option (List String)
  isFallbackImage : Bool
deriving Repr, DecidableEq

/-- The artifact list a `GVResult` hands the caller: the `uris` batch when
present, else the single `uri`. -/
def GVResult.allArtifacts (r : GVResult) : List String :=
  match r.uris with
  | some l => l
  | none => [r.uri]

/-- Observable outcome of `generateVideo`: the settled value or final error,
plus the list of fallback `generateImageFromText` invocations (prompt and
`inputImages` argument of each). -/
structure GVOutcome : Type where
  result : Except ErrVal GVResult
  fallbackCalls : List (String × List String)

/-- The prompt quality suffix appended at line 412. -/
def qualitySuffix : String :=
  ", cinematic lighting, highly detailed, photorealistic, 4k, smooth motion, professional color grading"

/-- The `inputImages` argument of the fallback call (line 533):
`finalInputImageBase64 ? [finalInputImageBase64] : []`, where
`finalInputImageBase64` is the converted full data URI when the primary
input image was present and its conversion succeeded, else `null`
(lines 431-439 swallow a conversion failure with a warning). -/
def assetsOf : Option (Except ErrVal String) → List String
  | some (Except.ok u) => [u]
  | _ => []

/-- Whether the fallback `generateImageFromText` call would succeed for a
given service response: the call must fulfil and parse to a nonempty image
list. -/
def fallbackOkB : Except ErrVal (List RespPart) → Bool
  | Except.ok parts => !(extractImages parts).isEmpty
  | Except.error _ => false

/-- Model of the Veo path of `generateVideo` (geminiService.ts lines
401-541) from the fan-out on.  Parameters:
`apiKey` — `process.env.API_KEY`; `prompt` — the user prompt (the quality
suffix is appended here, line 413); `countOpt` — `options.count`, resolved
as `options.count || 1` (line 469); `inputConv` — `none` when no
`inputImageBase64` was given, `some (ok u)` when it was given and
`convertImageToCompatibleFormat` produced full data URI `u`, `some (error e)`
when the conversion threw (swallowed at line 438); `branch i` — the terminal
outcome of fan-out branch `i` (its `retryWithBackoff`-wrapped start+poll
promise); `fbService` — the `generateContent` response the fallback call
would receive.  The Wan/Pollo stub (line 420-423, empty body) and the
`referenceImages` config conversion (lines 458-467, not consulted by any
result path) are outside this model. -/
def generateVideoModel (apiKey prompt : String) (countOpt : Option Nat)
    (inputConv : Option (Except ErrVal String))
    (branch : Nat → BranchOutcome)
    (fbService : Except ErrVal (List RespPart)) : GVOutcome :=
  let enhancedPrompt := prompt ++ qualitySuffix
  let count := match countOpt with
    | some c => if c = 0 then 1 else c
    | none => 1
  let results := fanOutResults branch count
  let validUris := collectUris apiKey results
  if validUris.isEmpty then
    let e := primaryError results
    let fallbackPrompt := "Cinematic movie still, " ++ enhancedPrompt
    let inputImages := assetsOf inputConv
    { result :=
        match generateImageFromTextCore fbService with
        | Except.ok imgs =>
          Except.ok { uri := imgs.headD "", uris := none, isFallbackImage := true }
        | Except.error _ =>
          Except.error (mkError
            ("Video generation failed and Image fallback also failed: " ++
              getErrorMessage e)),
      fallbackCalls := [(fallbackPrompt, inputImages)] }
  else
    { result := Except.ok
        { uri := validUris.headD "", uris := some validUris, isFallbackImage := false },
      fallbackCalls := [] }

/-- Concrete retryable error (status 503) used by witnesses. -/
def overloadErr : ErrVal := ErrVal.obj (some 503) none (some "overloaded") none "\x7b\x7d"

/-- Concrete fatal error used by witnesses. -/
def fatalErr : ErrVal := ErrVal.obj (some 400) none (some "bad input") none "\x7b\x7d"

/-- Witness operation: attempt 0 fails with an overload error, attempt 1
succeeds. -/
def opRetryOnce : Nat → Except ErrVal Nat :=
  fun n => if n = 0 then Except.error overloadErr else Except.ok 7

/-- The retry loop never makes more attempts than it has remaining
iterations. -/
theorem retryGo_attempts_le (op : Nat → Except ErrVal α) (mr d : Nat) :
    ∀ r i, (retryGo op mr d i r).attempts ≤ r
  | 0, _ => by simp [retryGo]
  | r + 1, i => by
    have ih := retryGo_attempts_le op mr d r (i + 1)
    rcases h : op i with e | v
    · by_cases hc : isOverloaded e = true ∧ i < mr - 1
      · simp only [retryGo, h, if_pos hc]
        omega
      · simp [retryGo, h, hc]
    · simp [retryGo, h]

/-- C3: For `maxAttempts = 3` and any base delay, the backoff executor
behaves as claimed on every attempt-outcome sequence: a first success is
returned after 1 attempt with no delay; a FATAL first failure (not
classified overloaded) is propagated after exactly 1 attempt with no delay;
a RETRYABLE failure with attempts remaining suspends for
`baseDelay * 2 ^ attemptIndex` and retries (delays `d, 2d`); after the
third attempt the last error is propagated; and never more than 3 attempts
are made. -/
theorem backoff_retry_policy (op : Nat → Except ErrVal α) (d : Nat) :
    (∀ v, op 0 = Except.ok v →
      retryWithBackoff op 3 d = ⟨Except.ok v, 1, []⟩) ∧
    (∀ e, op 0 = Except.error e → isOverloaded e = false →
      retryWithBackoff op 3 d = ⟨Except.error e, 1, []⟩) ∧
    (∀ e v, op 0 = Except.error e → isOverloaded e = true → op 1 = Except.ok v →
      retryWithBackoff op 3 d = ⟨Except.ok v, 2, [d * 2 ^ 0]⟩) ∧
    (∀ e0 e1, op 0 = Except.error e0 → isOverloaded e0 = true →
      op 1 = Except.error e1 → isOverloaded e1 = false →
      retryWithBackoff op 3 d = ⟨Except.error e1, 2, [d * 2 ^ 0]⟩) ∧
    (∀ e0 e1, op 0 = Except.error e0 → isOverloaded e0 = true →
      op 1 = Except.error e1 → isOverloaded e1 = true →
      (∀ v, op 2 = Except.ok v →
        retryWithBackoff op 3 d = ⟨Except.ok v, 3, [d * 2 ^ 0, d * 2 ^ 1]⟩) ∧
      (∀ e2, op 2 = Except.error e2 →
        retryWithBackoff op 3 d = ⟨Except.error e2, 3, [d * 2 ^ 0, d * 2 ^ 1]⟩)) ∧
    (retryWithBackoff op 3 d).attempts ≤ 3 := by
  refine ⟨?_, ?_, ?_, ?_, ?_, ?_⟩
  · intro v h0
    simp [retryWithBackoff, retryGo, h0]
  · intro e h0 hf
    simp [retryWithBackoff, retryGo, h0, hf]
  · intro e v h0 hr h1
    simp [retryWithBackoff, retryGo, h0, hr, h1]
  · intro e0 e1 h0 hr0 h1 hf1
    simp [retryWithBackoff, retryGo, h0, hr0, h1, hf1]
  · intro e0 e1 h0 hr0 h1 hr1
    constructor
    · intro v h2
      simp [retryWithBackoff, retryGo, h0, hr0, h1, hr1, h2]
    · intro e2 h2
      simp [retryWithBackoff, retryGo, h0, hr0, h1, hr1, h2]
  · exact retryGo_attempts_le op 3 d 3 0

/-- Witness for C3: the concrete operation failing once with a 503 error
then succeeding is retried after the base delay and returns the success on
attempt 2. -/
theorem backoff_retry_policy_witness :
    retryWithBackoff opRetryOnce 3 2000 = ⟨Except.ok 7, 2, [2000 * 2 ^ 0]⟩ :=
  (backoff_retry_policy opRetryOnce 2000).2.2.1 overloadErr 7 rfl rfl rfl

/-- Decoding a little-endian 32-bit field recovers the written value modulo
2^32. -/
theorem decodeU32le_u32le (n : Nat) : decodeU32le (u32le n) = n % 4294967296 := by
  simp [decodeU32le, u32le]
  omega

/-- Decoding a little-endian 16-bit field recovers the written value modulo
2^16. -/
theorem decodeU16le_u16le (n : Nat) : decodeU16le (u16le n) = n % 65536 := by
  simp [decodeU16le, u16le]
  omega

set_option maxHeartbeats 1600000 in
/-- C6: For every chunk list and sample rate, the audio container encoder
emits a fixed 44-byte header followed by the chunks concatenated in input
order (total length `44 + L`), and the header fields read back (little-
endian) as: RIFF file size `36 + L`, data length `L`, channels 1, bit depth
16, the given sample rate, byte rate `sampleRate * 1 * 2`, block align 2 —
exactly, whenever the value fits in its field width, and modulo the field
width in general (the `DataView` setters truncate). -/
theorem wav_container_layout (chunks : List (List Nat)) (r : Nat) :
    (combineChunks chunks r).length = 44 + totalLen chunks ∧
    (combineChunks chunks r).take 44 = wavHeader r (totalLen chunks) ∧
    (combineChunks chunks r).drop 44 = chunks.join ∧
    (combineChunks chunks r).take 4 = asciiBytes "RIFF" ∧
    ((combineChunks chunks r).drop 8).take 4 = asciiBytes "WAVE" ∧
    ((combineChunks chunks r).drop 36).take 4 = asciiBytes "data" ∧
    decodeU32le (((combineChunks chunks r).drop 4).take 4) =
      (36 + totalLen chunks) % 4294967296 ∧
    decodeU32le (((combineChunks chunks r).drop 40).take 4) =
      totalLen chunks % 4294967296 ∧
    decodeU16le (((combineChunks chunks r).drop 22).take 2) = 1 ∧
    decodeU16le (((combineChunks chunks r).drop 34).take 2) = 16 ∧
    decodeU32le (((combineChunks chunks r).drop 24).take 4) = r % 4294967296 ∧
    decodeU32le (((combineChunks chunks r).drop 28).take 4) =
      (r * 1 * 2) % 4294967296 ∧
    decodeU16le (((combineChunks chunks r).drop 32).take 2) = 2 ∧
    (36 + totalLen chunks < 4294967296 →
      decodeU32le (((combineChunks chunks r).drop 4).take 4) = 36 + totalLen chunks) ∧
    (totalLen chunks < 4294967296 →
      decodeU32le (((combineChunks chunks r).drop 40).take 4) = totalLen chunks) ∧
    (r < 4294967296 →
      decodeU32le (((combineChunks chunks r).drop 24).take 4) = r) ∧
    (r * 1 * 2 < 4294967296 →
      decodeU32le (((combineChunks chunks r).drop 28).take 4) = r * 1 * 2) := by
  have h4 : ((combineChunks chunks r).drop 4).take 4 = u32le (36 + totalLen chunks) := rfl
  have h40 : ((combineChunks chunks r).drop 40).take 4 = u32le (totalLen chunks) := rfl
  have h24 : ((combineChunks chunks r).drop 24).take 4 = u32le r := rfl
  have h28 : ((combineChunks chunks r).drop 28).take 4 = u32le (r * 1 * 2) := rfl
  refine ⟨?_, rfl, rfl, rfl, rfl, rfl, ?_, ?_, rfl, rfl, ?_, ?_, rfl, ?_, ?_, ?_, ?_⟩
  · simp [combineChunks, totalLen, wavHeader, u32le, u16le, asciiBytes]
    omega
  · rw [h4, decodeU32le_u32le]
  · rw [h40, decodeU32le_u32le]
  · rw [h24, decodeU32le_u32le]
  · rw [h28, decodeU32le_u32le]
  · intro hlt
    rw [h4, decodeU32le_u32le, Nat.mod_eq_of_lt hlt]
  · intro hlt
    rw [h40, decodeU32le_u32le, Nat.mod_eq_of_lt hlt]
  · intro hlt
    rw [h24, decodeU32le_u32le, Nat.mod_eq_of_lt hlt]
  · intro hlt
    rw [h28, decodeU32le_u32le, Nat.mod_eq_of_lt hlt]

/-- Witness for C6: on the concrete chunk list `[[1,2],[3]]` (lengths 2 and
1) at rate 24000, the data-length field reads back exactly 3 and the file-
size field 39. -/
theorem wav_container_layout_witness :
    decodeU32le (((combineChunks [[1, 2], [3]] 24000).drop 40).take 4) = 3 ∧
    decodeU32le (((combineChunks [[1, 2], [3]] 24000).drop 4).take 4) = 39 := by
  have h := wav_container_layout [[1, 2], [3]] 24000
  exact ⟨h.2.2.2.2.2.2.2.2.2.2.2.2.2.2.1 (by decide),
         h.2.2.2.2.2.2.2.2.2.2.2.2.2.1 (by decide)⟩

/-- C7: An input that is already an embedded image data payload with a
supported mime type (`image/png`, `image/jpeg` or `image/jpg`) passes the
fast path of the Format Normalizer untouched: the returned data is the
payload byte-for-byte, the mime type is the input's own, and the full data
URI is the input itself — no re-encoding occurs (the canvas branch is never
reached). -/
theorem normalizer_fast_path (payload mime : List Char)
    (hm : mime = "png".data ∨ mime = "jpeg".data ∨ mime = "jpg".data) :
    convertImageFast ("data:image/".data ++ mime ++ ";base64,".data ++ payload) =
      some { data := payload, mimeType := "image/" ++ String.mk mime,
             fullDataUri := "data:image/".data ++ mime ++ ";base64,".data ++ payload } := by
  rcases hm with hm | hm | hm <;> subst hm
  · have h1 : ("data:".data ++ "image/".data).isPrefixOf
        ("data:image/".data ++ "png".data ++ ";base64,".data ++ payload) = true := rfl
    have h2 : (("data:image/".data ++ "png".data ++ ";base64,".data ++ payload).drop
        ("data:".data ++ "image/".data).length).takeWhile isMimeChar = "png".data := rfl
    simp only [convertImageFast, matchDataUri, h1, if_true, h2]
    norm_num
  · have h1 : ("data:".data ++ "image/".data).isPrefixOf
        ("data:image/".data ++ "jpeg".data ++ ";base64,".data ++ payload) = true := rfl
    have h2 : (("data:image/".data ++ "jpeg".data ++ ";base64,".data ++ payload).drop
        ("data:".data ++ "image/".data).length).takeWhile isMimeChar = "jpeg".data := rfl
    simp only [convertImageFast, matchDataUri, h1, if_true, h2]
    norm_num
  · have h1 : ("data:".data ++ "image/".data).isPrefixOf
        ("data:image/".data ++ "jpg".data ++ ";base64,".data ++ payload) = true := rfl
    have h2 : (("data:image/".data ++ "jpg".data ++ ";base64,".data ++ payload).drop
        ("data:".data ++ "image/".data).length).takeWhile isMimeChar = "jpg".data := rfl
    simp only [convertImageFast, matchDataUri, h1, if_true, h2]
    norm_num

/-- Witness for C7: a concrete PNG data URI is passed through with its
payload and mime type unchanged. -/
theorem normalizer_fast_path_witness :
    convertImageFast ("data:image/".data ++ "png".data ++ ";base64,".data ++ "AAAA".data) =
      some { data := "AAAA".data, mimeType := "image/" ++ String.mk "png".data,
             fullDataUri := "data:image/".data ++ "png".data ++ ";base64,".data ++ "AAAA".data } :=
  normalizer_fast_path "AAAA".data "png".data (Or.inl rfl)

/-- Unfolding one completion event of the slot-writing aggregation model. -/
theorem settleAux_cons (out : Nat → α) (i : Nat) (rest : List Nat)
    (init : List (Option α)) :
    settleAux out (i :: rest) init = settleAux out rest (init.set i (some (out i))) := rfl

/-- Slot writes preserve the number of slots. -/
theorem settleAux_length (out : Nat → α) (order : List Nat) :
    ∀ init : List (Option α), (settleAux out order init).length = init.length := by
  induction order with
  | nil => intro init; rfl
  | cons i rest ih =>
    intro init
    rw [settleAux_cons, ih]
    simp

/-- A slot no completion event targets keeps its initial value. -/
theorem settleAux_not_mem (out : Nat → α) (order : List Nat) :
    ∀ (init : List (Option α)) (j : Nat), j ∉ order →
      (settleAux out order init)[j]? = init[j]? := by
  induction order with
  | nil => intro init j _; rfl
  | cons i rest ih =>
    intro init j hj
    have hji : i ≠ j := fun h => hj (h ▸ List.mem_cons_self i rest)
    have hjr : j ∉ rest := fun h => hj (List.mem_cons_of_mem i h)
    rw [settleAux_cons, ih _ j hjr]
    exact List.getElem?_set_ne hji

/-- A slot some completion event targets ends up holding its own branch's
outcome, whatever the order and multiplicity of events. -/
theorem settleAux_mem (out : Nat → α) (order : List Nat) :
    ∀ (init : List (Option α)) (j : Nat), j ∈ order → j < init.length →
      (settleAux out order init)[j]? = some (some (out j)) := by
  induction order with
  | nil => intro init j hj _; cases hj
  | cons i rest ih =>
    intro init j hj hlen
    rw [settleAux_cons]
    by_cases hr : j ∈ rest
    · exact ih _ j hr (by simpa using hlen)
    · have hji : j = i := by
        rcases List.mem_cons.mp hj with h | h
        · exact h
        · exact absurd h hr
      subst hji
      rw [settleAux_not_mem out rest _ j hr]
      exact List.getElem?_set_self hlen

/-- Once every branch index has completed — in any completion order — the
settled array is the branch outcomes in submission (index) order. -/
theorem settleWrites_eq (out : Nat → α) (order : List Nat) (k : Nat)
    (h : ∀ j, j < k → j ∈ order) :
    settleWrites out order k = (List.range k).map (fun i => some (out i)) := by
  apply List.ext_getElem?_iff.mpr
  intro j
  by_cases hjk : j < k
  · rw [settleWrites, settleAux_mem out order _ j (h j hjk) (by simp [hjk])]
    simp [List.getElem?_map, List.getElem?_range hjk]
  · have h1 : (settleWrites out order k)[j]? = none := by
      apply List.getElem?_eq_none
      rw [settleWrites, settleAux_length]
      simp
      omega
    have h2 : ((List.range k).map (fun i => some (out i)))[j]? = none := by
      apply List.getElem?_eq_none
      simp
      omega
    rw [h1, h2]

/-- Characterization of `generateVideo` when no branch produced a valid uri:
the primary path throws, the fallback runs exactly once with the degraded
prompt and the carried-forward input asset list, and the final outcome
follows the fallback call. -/
theorem generateVideoModel_empty (apiKey prompt : String) (k : Nat)
    (inputConv : Option (Except ErrVal String)) (branch : Nat → BranchOutcome)
    (fbService : Except ErrVal (List RespPart)) (hk : k ≠ 0)
    (he : collectUris apiKey (fanOutResults branch k) = []) :
    generateVideoModel apiKey prompt (some k) inputConv branch fbService =
      { result :=
          match generateImageFromTextCore fbService with
          | Except.ok imgs =>
            Except.ok { uri := imgs.headD "", uris := none, isFallbackImage := true }
          | Except.error _ =>
            Except.error (mkError
              ("Video generation failed and Image fallback also failed: " ++
                getErrorMessage (primaryError (fanOutResults branch k)))),
        fallbackCalls :=
          [("Cinematic movie still, " ++ (prompt ++ qualitySuffix), assetsOf inputConv)] } := by
  simp [generateVideoModel, hk, he]

/-- Characterization of `generateVideo` when at least one branch produced a
valid uri: the call resolves with the collected uri list in submission
order, the first of them as primary, no fallback flag and no fallback
invocation. -/
theorem generateVideoModel_nonempty (apiKey prompt : String) (k : Nat)
    (inputConv : Option (Except ErrVal String)) (branch : Nat → BranchOutcome)
    (fbService : Except ErrVal (List RespPart)) (hk : k ≠ 0)
    (he : collectUris apiKey (fanOutResults branch k) ≠ []) :
    generateVideoModel apiKey prompt (some k) inputConv branch fbService =
      { result := Except.ok
          { uri := (collectUris apiKey (fanOutResults branch k)).headD "",
            uris := some (collectUris apiKey (fanOutResults branch k)),
            isFallbackImage := false },
        fallbackCalls := [] } := by
  simp [generateVideoModel, hk, he]

/-- The collected uri list over a fan-out is the per-index filter-map: the
uris of exactly the successful branches, in ascending branch index. -/
theorem collectUris_fanOut (apiKey : String) (branch : Nat → BranchOutcome) (k : Nat) :
    collectUris apiKey (fanOutResults branch k) =
      (List.range k).filterMap
        (fun i => (branchUri (branch i)).map (fun u => u ++ "&key=" ++ apiKey)) := by
  simp [collectUris, fanOutResults, List.filterMap_map]
  rfl

/-- The collected uri list is empty iff no branch in range succeeded. -/
theorem collectUris_eq_nil_iff (apiKey : String) (branch : Nat → BranchOutcome) (k : Nat) :
    collectUris apiKey (fanOutResults branch k) = [] ↔
      ∀ i, i < k → branchUri (branch i) = none := by
  rw [collectUris_fanOut]
  rw [List.filterMap_eq_nil_iff]
  constructor
  · intro h i hik
    have := h i (List.mem_range.mpr hik)
    rcases hb : branchUri (branch i) with _ | u
    · rfl
    · rw [hb] at this
      simp at this
  · intro h i hi
    rw [h i (List.mem_range.mp hi)]
    rfl

/-- Witness fan-out: branch 0 succeeds with a uri, all other branches are
rejected with an overload error. -/
def branchW : Nat → BranchOutcome :=
  fun i => if i = 0 then BranchOutcome.fulfilled (some ⟨some "http://video/0"⟩)
           else BranchOutcome.rejected overloadErr

/-- C2: A fan-out with `variantCount = k` settles exactly `k` per-branch
outcomes in ascending branch-index (submission) order: the settled list has
length `k` with slot `i` holding branch `i`'s outcome; slot `i` depends only
on branch `i` (a sibling's failure cannot alter it); aggregation waits for
every index to complete and is invariant under the completion order; and
the artifact list is the uris of exactly the successful branches in
ascending index order — also as the `uris` field of a non-fallback
`generateVideo` result. -/
theorem fanout_index_order_isolation (apiKey : String)
    (branch : Nat → BranchOutcome) (k : Nat) :
    (fanOutResults branch k).length = k ∧
    (∀ i, i < k → (fanOutResults branch k)[i]? = some (branch i)) ∧
    (∀ branch' : Nat → BranchOutcome, ∀ i, i < k → branch i = branch' i →
      (fanOutResults branch k)[i]? = (fanOutResults branch' k)[i]?) ∧
    (∀ order : List Nat, (∀ j, j < k → j ∈ order) →
      settleWrites branch order k = (fanOutResults branch k).map some) ∧
    collectUris apiKey (fanOutResults branch k) =
      (List.range k).filterMap
        (fun i => (branchUri (branch i)).map (fun u => u ++ "&key=" ++ apiKey)) ∧
    (∀ (prompt : String) inputConv fbService r, k ≠ 0 →
      (generateVideoModel apiKey prompt (some k) inputConv branch fbService).result =
        Except.ok r →
      r.isFallbackImage = false →
      r.uris = some ((List.range k).filterMap
        (fun i => (branchUri (branch i)).map (fun u => u ++ "&key=" ++ apiKey)))) := by
  have hget : ∀ (b : Nat → BranchOutcome) (i : Nat), i < k →
      (fanOutResults b k)[i]? = some (b i) := by
    intro b i h
    simp [fanOutResults, List.getElem?_map, List.getElem?_range h]
  refine ⟨?_, hget branch, ?_, ?_, collectUris_fanOut apiKey branch k, ?_⟩
  · simp [fanOutResults]
  · intro branch' i h heq
    rw [hget branch i h, hget branch' i h, heq]
  · intro order h
    rw [settleWrites_eq branch order k h]
    simp [fanOutResults, List.map_map]
  · intro prompt inputConv fbService r hk hok hnf
    by_cases he : collectUris apiKey (fanOutResults branch k) = []
    · rw [generateVideoModel_empty apiKey prompt k inputConv branch fbService hk he] at hok
      rcases hfb : generateImageFromTextCore fbService with e | imgs
      · rw [hfb] at hok
        simp at hok
      · rw [hfb] at hok
        simp at hok
        rw [← hok] at hnf
        simp at hnf
    · rw [generateVideoModel_nonempty apiKey prompt k inputConv branch fbService hk he] at hok
      simp at hok
      rw [← hok, ← collectUris_fanOut]

/-- Witness for C2: with 3 branches completing in reverse order (branch 2
first, then 1, then 0), the settled list is still `[outcome 0, outcome 1,
outcome 2]`. -/
theorem fanout_index_order_isolation_witness :
    settleWrites branchW [2, 1, 0] 3 = (fanOutResults branchW 3).map some :=
  (fanout_index_order_isolation "KEY" branchW 3).2.2.2.1 [2, 1, 0]
    (by intro j hj; interval_cases j <;> decide)

/-- The fallback call succeeds (with some image list) exactly when its
service response fulfils and parses to a nonempty image list. -/
theorem generateImageFromTextCore_ok_iff (fbService : Except ErrVal (List RespPart)) :
    (∃ imgs, generateImageFromTextCore fbService = Except.ok imgs) ↔
      fallbackOkB fbService = true := by
  rcases fbService with e | parts
  · simp [generateImageFromTextCore, fallbackOkB]
  · by_cases h : (extractImages parts).isEmpty <;>
      simp [generateImageFromTextCore, fallbackOkB, h]

/-- The collected uri list is nonempty iff some branch in range succeeded. -/
theorem collectUris_ne_nil_iff (apiKey : String) (branch : Nat → BranchOutcome) (k : Nat) :
    collectUris apiKey (fanOutResults branch k) ≠ [] ↔
      ∃ i, i < k ∧ branchUri (branch i) ≠ none := by
  rw [ne_eq, collectUris_eq_nil_iff]
  push_neg
  rfl

/-- C1: A video request resolves with a `GenerationResult` iff at least one
fan-out branch succeeded or the image fallback succeeded; every resolved
result carries at least one artifact (an empty-but-successful result is
impossible); when every branch fails and the fallback also fails a single
error is propagated; and when at least one branch succeeded the result is
non-fallback and the Fallback Chain is never invoked. -/
theorem video_result_iff_any_success (apiKey prompt : String) (k : Nat)
    (inputConv : Option (Except ErrVal String)) (branch : Nat → BranchOutcome)
    (fbService : Except ErrVal (List RespPart)) (hk : k ≠ 0) :
    ((∃ r, (generateVideoModel apiKey prompt (some k) inputConv branch fbService).result =
        Except.ok r) ↔
      ((∃ i, i < k ∧ branchUri (branch i) ≠ none) ∨ fallbackOkB fbService = true)) ∧
    (∀ r, (generateVideoModel apiKey prompt (some k) inputConv branch fbService).result =
        Except.ok r → r.allArtifacts ≠ []) ∧
    ((∀ i, i < k → branchUri (branch i) = none) → fallbackOkB fbService = false →
      ∃ e, (generateVideoModel apiKey prompt (some k) inputConv branch fbService).result =
        Except.error e) ∧
    ((∃ i, i < k ∧ branchUri (branch i) ≠ none) →
      (generateVideoModel apiKey prompt (some k) inputConv branch fbService).fallbackCalls
        = [] ∧
      ∃ r, (generateVideoModel apiKey prompt (some k) inputConv branch fbService).result =
        Except.ok r ∧ r.isFallbackImage = false) := by
  by_cases he : collectUris apiKey (fanOutResults branch k) = []
  · have hnone := (collectUris_eq_nil_iff apiKey branch k).mp he
    have hnex : ¬ ∃ i, i < k ∧ branchUri (branch i) ≠ none := by
      rw [← collectUris_ne_nil_iff apiKey branch k]
      simp [he]
    rw [generateVideoModel_empty apiKey prompt k inputConv branch fbService hk he]
    rcases hfb : generateImageFromTextCore fbService with e | imgs
    · have hfbok : fallbackOkB fbService = false := by
        rcases hb : fallbackOkB fbService with _ | _
        · rfl
        · rcases (generateImageFromTextCore_ok_iff fbService).mpr hb with ⟨imgs, hi⟩
          rw [hfb] at hi
          cases hi
      refine ⟨?_, ?_, ?_, ?_⟩
      · simp [hfb, hnex, hfbok]
      · intro r hr
        simp [hfb] at hr
      · intro _ _
        simp [hfb]
      · intro hex
        exact absurd hex hnex
    · have hfbok : fallbackOkB fbService = true :=
        (generateImageFromTextCore_ok_iff fbService).mp ⟨imgs, hfb⟩
      refine ⟨?_, ?_, ?_, ?_⟩
      · simp [hfb, hfbok]
      · intro r hr
        simp [hfb] at hr
        rw [← hr]
        simp [GVResult.allArtifacts]
      · intro _ hcontra
        rw [hfbok] at hcontra
        cases hcontra
      · intro hex
        exact absurd hex hnex
  · have hex : ∃ i, i < k ∧ branchUri (branch i) ≠ none :=
      (collectUris_ne_nil_iff apiKey branch k).mp he
    rw [generateVideoModel_nonempty apiKey prompt k inputConv branch fbService hk he]
    refine ⟨?_, ?_, ?_, ?_⟩
    · simp [hex]
    · intro r hr
      simp at hr
      rw [← hr]
      simp [GVResult.allArtifacts, he]
    · intro hall _
      exact absurd ((collectUris_eq_nil_iff apiKey branch k).mpr hall) he
    · intro _
      exact ⟨rfl, ⟨_, rfl, rfl⟩⟩

/-- Witness for C1: with two branches where branch 0 succeeds and branch 1
is rejected, the request resolves, no fallback call is made, and the result
is non-fallback. -/
theorem video_result_iff_any_success_witness :
    (generateVideoModel "KEY" "p" (some 2) none branchW
      (Except.error fatalErr)).fallbackCalls = [] ∧
    ∃ r, (generateVideoModel "KEY" "p" (some 2) none branchW
      (Except.error fatalErr)).result = Except.ok r ∧ r.isFallbackImage = false :=
  (video_result_iff_any_success "KEY" "p" 2 none branchW (Except.error fatalErr)
    (by decide)).2.2.2 ⟨0, by decide, by decide⟩

/-- C4: Whenever every fan-out branch of a video request fails, the image
fallback is invoked exactly once, with the degraded prompt and with the
primary attempt's converted input reference image carried forward (a
nonempty asset list whenever the primary attempt carried one); on fallback
success the returned artifact has `isFallbackImage = true`. -/
theorem fallback_once_carries_input (apiKey prompt : String) (k : Nat)
    (inputConv : Option (Except ErrVal String)) (branch : Nat → BranchOutcome)
    (fbService : Except ErrVal (List RespPart)) (hk : k ≠ 0)
    (hfail : ∀ i, i < k → branchUri (branch i) = none) :
    (generateVideoModel apiKey prompt (some k) inputConv branch fbService).fallbackCalls =
      [("Cinematic movie still, " ++ (prompt ++ qualitySuffix), assetsOf inputConv)] ∧
    (generateVideoModel apiKey prompt (some k) inputConv branch
      fbService).fallbackCalls.length = 1 ∧
    (∀ u, inputConv = some (Except.ok u) →
      assetsOf inputConv = [u] ∧ assetsOf inputConv ≠ []) ∧
    (fallbackOkB fbService = true →
      ∃ r, (generateVideoModel apiKey prompt (some k) inputConv branch
        fbService).result = Except.ok r ∧ r.isFallbackImage = true) := by
  have he : collectUris apiKey (fanOutResults branch k) = [] :=
    (collectUris_eq_nil_iff apiKey branch k).mpr hfail
  rw [generateVideoModel_empty apiKey prompt k inputConv branch fbService hk he]
  refine ⟨rfl, rfl, ?_, ?_⟩
  · intro u hu
    subst hu
    exact ⟨rfl, by simp [assetsOf]⟩
  · intro hfbok
    rcases (generateImageFromTextCore_ok_iff fbService).mpr hfbok with ⟨imgs, hfb⟩
    rw [hfb]
    exact ⟨_, rfl, rfl⟩

/-- Witness for C4: one rejected branch, a converted input image present,
and a fallback service returning one image — the fallback request carries
the image and the result is flagged as fallback. -/
theorem fallback_once_carries_input_witness :
    (generateVideoModel "KEY" "p" (some 1) (some (Except.ok "data:image/png;base64,AA"))
      (fun _ => BranchOutcome.rejected fatalErr)
      (Except.ok [⟨some "image/png", some "IMG"⟩])).fallbackCalls =
      [("Cinematic movie still, " ++ ("p" ++ qualitySuffix),
        assetsOf (some (Except.ok "data:image/png;base64,AA")))] ∧
    (generateVideoModel "KEY" "p" (some 1) (some (Except.ok "data:image/png;base64,AA"))
      (fun _ => BranchOutcome.rejected fatalErr)
      (Except.ok [⟨some "image/png", some "IMG"⟩])).fallbackCalls.length = 1 ∧
    (∀ u, (some (Except.ok "data:image/png;base64,AA") :
        Option (Except ErrVal String)) = some (Except.ok u) →
      assetsOf (some (Except.ok "data:image/png;base64,AA")) = [u] ∧
      assetsOf (some (Except.ok "data:image/png;base64,AA")) ≠ []) ∧
    (fallbackOkB (Except.ok [⟨some "image/png", some "IMG"⟩]) = true →
      ∃ r, (generateVideoModel "KEY" "p" (some 1)
        (some (Except.ok "data:image/png;base64,AA"))
        (fun _ => BranchOutcome.rejected fatalErr)
        (Except.ok [⟨some "image/png", some "IMG"⟩])).result = Except.ok r ∧
        r.isFallbackImage = true) :=
  fallback_once_carries_input "KEY" "p" 1 (some (Except.ok "data:image/png;base64,AA"))
    (fun _ => BranchOutcome.rejected fatalErr)
    (Except.ok [⟨some "image/png", some "IMG"⟩]) (by decide) (fun _ _ => rfl)

/-- C8: When every branch fails and the image fallback also fails, the error
surfaced to the caller is built from the original primary failure — its
message is the both-paths-failed tag followed by `getErrorMessage` of the
primary error (the fallback's own error is discarded). -/
theorem combined_error_primary_cause (apiKey prompt : String) (k : Nat)
    (inputConv : Option (Except ErrVal String)) (branch : Nat → BranchOutcome)
    (fbService : Except ErrVal (List RespPart)) (hk : k ≠ 0)
    (hfail : ∀ i, i < k → branchUri (branch i) = none)
    (hfb : fallbackOkB fbService = false) :
    (generateVideoModel apiKey prompt (some k) inputConv branch fbService).result =
      Except.error (mkError
        ("Video generation failed and Image fallback also failed: " ++
          getErrorMessage (primaryError (fanOutResults branch k)))) := by
  have he : collectUris apiKey (fanOutResults branch k) = [] :=
    (collectUris_eq_nil_iff apiKey branch k).mpr hfail
  rw [generateVideoModel_empty apiKey prompt k inputConv branch fbService hk he]
  rcases hcore : generateImageFromTextCore fbService with e | imgs
  · rfl
  · have : fallbackOkB fbService = true :=
      (generateImageFromTextCore_ok_iff fbService).mp ⟨imgs, hcore⟩
    rw [this] at hfb
    cases hfb

/-- Witness for C8: with one branch rejected with a fatal error and a failed
fallback, the surfaced error message carries the primary failure's message. -/
theorem combined_error_primary_cause_witness :
    (generateVideoModel "KEY" "p" (some 1) none
      (fun _ => BranchOutcome.rejected fatalErr) (Except.error overloadErr)).result =
      Except.error (mkError
        ("Video generation failed and Image fallback also failed: " ++
          getErrorMessage (primaryError
            (fanOutResults (fun _ => BranchOutcome.rejected fatalErr) 1)))) :=
  combined_error_primary_cause "KEY" "p" 1 none
    (fun _ => BranchOutcome.rejected fatalErr) (Except.error overloadErr)
    (by decide) (fun _ _ => rfl) (by decide)

/-- C10: Every URI of a successful non-fallback video result — the primary
`uri` and every element of `uris` — is a service-returned branch uri with
`&key=` and the configured API key appended. -/
theorem video_uris_embed_api_key (apiKey prompt : String) (k : Nat)
    (inputConv : Option (Except ErrVal String)) (branch : Nat → BranchOutcome)
    (fbService : Except ErrVal (List RespPart)) (r : GVResult) (hk : k ≠ 0)
    (hok : (generateVideoModel apiKey prompt (some k) inputConv branch fbService).result =
      Except.ok r)
    (hnf : r.isFallbackImage = false) :
    ∃ l, r.uris = some l ∧ r.uri ∈ l ∧
      ∀ u ∈ l, ∃ i, i < k ∧ ∃ w, branchUri (branch i) = some w ∧
        u = w ++ "&key=" ++ apiKey := by
  by_cases he : collectUris apiKey (fanOutResults branch k) = []
  · rw [generateVideoModel_empty apiKey prompt k inputConv branch fbService hk he] at hok
    rcases hfb : generateImageFromTextCore fbService with e | imgs
    · rw [hfb] at hok
      simp at hok
    · rw [hfb] at hok
      simp at hok
      rw [← hok] at hnf
      simp at hnf
  · rw [generateVideoModel_nonempty apiKey prompt k inputConv branch fbService hk he] at hok
    simp at hok
    refine ⟨collectUris apiKey (fanOutResults branch k), ?_, ?_, ?_⟩
    · rw [← hok]
    · rw [← hok]
      rcases hc : collectUris apiKey (fanOutResults branch k) with _ | ⟨u, rest⟩
      · exact absurd hc he
      · simp [hc]
    · intro u hu
      rw [collectUris_fanOut] at hu
      rcases List.mem_filterMap.mp hu with ⟨i, hi, hmap⟩
      rcases Option.map_eq_some'.mp hmap with ⟨w, hw, hwu⟩
      exact ⟨i, List.mem_range.mp hi, w, hw, hwu.symm⟩

/-- Witness for C10: with branch 0 succeeding with uri `http://video/0`,
the returned artifact list is exactly that uri with `&key=KEY` appended. -/
theorem video_uris_embed_api_key_witness :
    ∃ l, ({ uri := "http://video/0" ++ "&key=" ++ "KEY",
            uris := some ["http://video/0" ++ "&key=" ++ "KEY"],
            isFallbackImage := false } : GVResult).uris = some l ∧
      ({ uri := "http://video/0" ++ "&key=" ++ "KEY",
         uris := some ["http://video/0" ++ "&key=" ++ "KEY"],
         isFallbackImage := false } : GVResult).uri ∈ l ∧
      ∀ u ∈ l, ∃ i, i < 1 ∧ ∃ w, branchUri (branchW i) = some w ∧
        u = w ++ "&key=" ++ "KEY" :=
  video_uris_embed_api_key "KEY" "p" 1 none branchW (Except.error fatalErr)
    { uri := "http://video/0" ++ "&key=" ++ "KEY",
      uris := some ["http://video/0" ++ "&key=" ++ "KEY"],
      isFallbackImage := false }
    (by decide) (by rfl) rfl

/-- C5 counterexample: with `variantCount = 2` the image generator does NOT
make 2 independent calls — it issues exactly one `generateContent` call
(the source computes `count` and never uses it). -/
theorem image_fanout_counterexample :
    ¬ ((generateImageFromTextModel "p" "gemini-2.5-flash-image" [] (some 2)
        (Except.ok [⟨some "image/png", some "A"⟩])).serviceCalls.length = 2) := by
  decide

/-- C5 (amended): for every IMAGE request, whatever `variantCount` says, the
generator issues exactly one image-generation call (to the substring-derived
effective model, with the normalized input images and prompt as parts),
returns all images parsed from that single response, and fails with the
no-images error when the response parses to zero images (and with the
wrapped service error when the call itself fails). -/
theorem image_single_call_behavior (prompt model : String)
    (inputImages : List (List Char)) (countOpt : Option Nat)
    (service : Except ErrVal (List RespPart)) :
    (generateImageFromTextModel prompt model inputImages countOpt
      service).serviceCalls.length = 1 ∧
    (generateImageFromTextModel prompt model inputImages countOpt service).serviceCalls =
      [(if containsSub model "imagen" = true then "imagen-3.0-generate-002"
        else "gemini-2.5-flash-image",
        inputImages.map imagePartOf ++ [ReqPart.text prompt])] ∧
    (∀ parts, service = Except.ok parts →
      (extractImages parts = [] →
        (generateImageFromTextModel prompt model inputImages countOpt service).result =
          Except.error
            (mkError "No images generated. Safety filter might have been triggered.")) ∧
      (extractImages parts ≠ [] →
        (generateImageFromTextModel prompt model inputImages countOpt service).result =
          Except.ok (extractImages parts))) ∧
    (∀ e, service = Except.error e →
      (generateImageFromTextModel prompt model inputImages countOpt service).result =
        Except.error (mkError (getErrorMessage e))) := by
  refine ⟨rfl, ?_, ?_, ?_⟩
  · by_cases h : containsSub model "imagen" = true <;>
      simp [generateImageFromTextModel, h]
  · intro parts hs
    subst hs
    constructor
    · intro hempty
      simp [generateImageFromTextModel, generateImageFromTextCore, hempty]
    · intro hne
      simp [generateImageFromTextModel, generateImageFromTextCore,
        List.isEmpty_iff, hne]
  · intro e hs
    subst hs
    simp [generateImageFromTextModel, generateImageFromTextCore]

/-- Witness for the amended C5: a concrete request with `count = 3` makes
one call and returns the single response's images. -/
theorem image_single_call_behavior_witness :
    (generateImageFromTextModel "p" "m" [] (some 3)
      (Except.ok [⟨some "image/png", some "A"⟩])).serviceCalls.length = 1 ∧
    (generateImageFromTextModel "p" "m" [] (some 3)
      (Except.ok [⟨some "image/png", some "A"⟩])).result =
      Except.ok (extractImages [⟨some "image/png", some "A"⟩]) :=
  ⟨(image_single_call_behavior "p" "m" [] (some 3)
      (Except.ok [⟨some "image/png", some "A"⟩])).1,
   ((image_single_call_behavior "p" "m" [] (some 3)
      (Except.ok [⟨some "image/png", some "A"⟩])).2.2.1
      [⟨some "image/png", some "A"⟩] rfl).2 (by decide)⟩

/-- C9 counterexample: a TRANSCRIBE request with a remote URL input is NOT
rejected — `transcribeAudio` performs no validation, calls the service with
the raw URL string as inline data (default mime `audio/wav`), and returns
the service's text. -/
theorem transcribe_url_not_rejected :
    (transcribeAudioModel "https://host/a.wav".data (Except.ok (some "hi"))).called
      = true ∧
    (transcribeAudioModel "https://host/a.wav".data (Except.ok (some "hi"))).result
      = Except.ok "hi" ∧
    (transcribeAudioModel "https://host/a.wav".data (Except.ok (some "hi"))).sentData
      = some "https://host/a.wav".data := by
  refine ⟨rfl, rfl, ?_⟩
  decide

/-- C9 (amended): ANALYSIS rejects any non-`data:` input with the
descriptive demo error before calling the service; TRANSCRIBE performs no
such validation — it always calls the service, forwarding the (possibly
unstripped) input as payload. -/
theorem analysis_rejects_remote_transcribe_forwards (input : List Char)
    (serviceText : Except ErrVal (Option String)) :
    (("data:".data.isPrefixOf input) = false →
      analyzeVideoModel input serviceText =
        { result := Except.error (mkError
            "Direct URL analysis not implemented in this demo. Please use uploaded videos."),
          called := false, sentMime := none, sentData := none }) ∧
    (transcribeAudioModel input serviceText).called = true ∧
    (transcribeAudioModel input serviceText).sentData =
      some (stripMedia "audio/" "audio/wav" input).2 := by
  refine ⟨?_, rfl, rfl⟩
  intro h
  simp [analyzeVideoModel, h]

/-- Witness for the amended C9: a concrete remote URL input to ANALYSIS is
rejected without a service call. -/
theorem analysis_rejects_remote_witness :
    analyzeVideoModel "https://host/v.mp4".data (Except.ok (some "x")) =
      { result := Except.error (mkError
          "Direct URL analysis not implemented in this demo. Please use uploaded videos."),
        called := false, sentMime := none, sentData := none } :=
  (analysis_rejects_remote_transcribe_forwards "https://host/v.mp4".data
    (Except.ok (some "x"))).1 (by decide)
